import Mathlib

/-!
# Verification of the STK-Python-Toolkit configuration round-trip engine

Shallow embedding of the core of `stk_toolkit`: the component type model
(`components/base.py`, `components/satellite.py`, `components/facility.py`),
the factory (`components/factory.py`), the satellite modifier
(`modifiers/satellite_modifier.py`) and the exporter/normalizer
(`exports/component_exporter.py`).

The external STK backend is modelled deterministically for the configuration
semantics: property writes store values exactly, property reads return the
stored values, numeric values are rationals.  A fresh object starts from the
scenario's defaults (a `Scenario` record).  The binding life-cycle
(`create` / `load_from_existing` / `delete` of `ComponentBase`) is modelled
separately with explicit success/failure flags for each backend call, because
its claims are about failure behaviour.

Python dictionaries are modelled by structures with `Option` fields: `none`
means the key is absent (or the value is `None` where the source distinguishes
presence from non-`None`, in which case nested `Option`s are used).
-/

namespace STKToolkit

/-- Error conditions raised by the toolkit (`core/exceptions.py` plus the
distinct message conditions of `STKComponentError` / `STKModifyError`). -/
inductive STKErr where
  | missingType          -- "组件配置必须包含 'type' 字段"
  | unknownType          -- "未知的组件类型: ..."
  | notImplemented       -- "组件类型 '...' 尚未实现"
  | missingName          -- "... 配置必须包含 'name' 字段"
  | creationFailed       -- STKComponentError from create()/load_from_existing()
  | deleteFailed         -- STKComponentError from delete()
  | modifyNotLoaded      -- "未加载目标对象，请先调用 load() 方法"
  | unsupportedPropagator  -- "不支持的传播器类型: ..."
  | modifyFailed         -- STKModifyError from _modify_*_orbit / constraints
  deriving Repr, DecidableEq

/-- A live access constraint on a backend object: `ConstraintName`,
`ConstraintType` (the backend's numeric code), and the min/max flag/value
pairs exposed through `IAgAccessCnstrMinMax`. -/
structure LiveConstraint where
  name : String
  ctype : Nat
  enableMin : Bool
  minVal : ℚ
  enableMax : Bool
  maxVal : ℚ
  deriving Repr, DecidableEq

/-- Backend model: `QueryInterface(IAgAccessCnstrMinMax)` succeeds exactly on
the non-boolean constraint kinds; the boolean line-of-sight kind (type code
26) exposes no min/max interface. -/
def LiveConstraint.supportsMinMax (c : LiveConstraint) : Bool :=
  c.ctype != 26

/-- A declarative constraint record `{"name": ..., "min": ..., "max": ...}`
as consumed by `from_dict` and produced by the normalizer.  A missing or
falsy `name` key is modelled by the empty string (the source tests
`if not target_name`). -/
structure CEntry where
  name : String
  min : Option ℚ
  max : Option ℚ
  deriving Repr, DecidableEq

/-- The classical orbital elements managed by the satellite component. -/
structure OrbitElems where
  semiMajorAxis : ℚ
  eccentricity : ℚ
  inclination : ℚ
  raan : ℚ
  argOfPerigee : ℚ
  trueAnomaly : ℚ
  deriving Repr, DecidableEq

/-- Live backend state of a satellite: propagator type code, propagation
step, classical elements of the initial state, and access constraints. -/
structure SatState where
  propType : Nat
  step : ℚ
  elems : OrbitElems
  constraints : List LiveConstraint
  deriving Repr, DecidableEq

/-- Live backend state of a facility: geodetic position and access
constraints. -/
structure FacState where
  latitude : ℚ
  longitude : ℚ
  altitude : ℚ
  constraints : List LiveConstraint
  deriving Repr, DecidableEq

/-- Scenario defaults: the state a freshly allocated backend object starts
from (`scenario.Children.New`). -/
structure Scenario where
  satDefaultProp : Nat
  satDefaultStep : ℚ
  satDefaultElems : OrbitElems
  satDefaultCons : List LiveConstraint
  facDefaultCons : List LiveConstraint
  deriving Repr, DecidableEq

/-- The implicit line-of-sight constraint (type code 26), present by default
on a fresh object ("默认已激活" in the source's registry comment). -/
def losDefault : LiveConstraint :=
  { name := "LineOfSight", ctype := 26
    enableMin := false, minVal := 0, enableMax := false, maxVal := 0 }

/-- Declarative orbit sub-record of a satellite configuration. -/
structure OrbitConfig where
  semi_major_axis : Option ℚ
  eccentricity : Option ℚ
  inclination : Option ℚ
  raan : Option ℚ
  arg_of_perigee : Option ℚ
  true_anomaly : Option ℚ
  deriving Repr, DecidableEq

instance : Inhabited OrbitConfig := ⟨⟨none, none, none, none, none, none⟩⟩

/-- Declarative position sub-record of a facility configuration. -/
structure PosConfig where
  latitude : Option ℚ
  longitude : Option ℚ
  altitude : Option ℚ
  deriving Repr, DecidableEq

instance : Inhabited PosConfig := ⟨⟨none, none, none⟩⟩

/-- A declarative component record as consumed by the factory and the
`from_dict` constructors.  An absent `constraints` key and an empty list are
interchangeable for every consumer (`config.get("constraints", [])`), so a
plain list is used. -/
structure Config where
  type : Option String
  name : Option String
  propagator : Option String
  orbit : Option OrbitConfig
  step : Option ℚ
  position : Option PosConfig
  constraints : List CEntry
  deriving Repr, DecidableEq

/-- Python falsiness of an optional string field (`if not type_str`): the key
is absent or holds an empty string. -/
def isBlank : Option String → Bool
  | none => true
  | some s => s == ""

/-! ## Constraint registry

`constraint_type_map` of `FacilityComponent._set_constraints_after_creation`
(`components/facility.py`): constraint name → `AgEAccessCnstr` code.
`"LineOfSight": 26` is commented out in the source (default-active, never
added explicitly). -/

/-- The constraint name → type-code table, in source order. -/
def constraintTypeMap : List (String × Nat) :=
  [("Altitude", 2), ("AngularRate", 3), ("ApparentTime", 4),
   ("AzimuthAngle", 6), ("AzimuthRate", 69), ("CrdnAngle", 9),
   ("CrdnVectorMag", 10), ("Duration", 13), ("ElevationAngle", 14),
   ("ElevationRate", 70), ("GMT", 16), ("Intervals", 22), ("Lighting", 25),
   ("LocalTime", 27), ("Range", 34), ("RangeRate", 35),
   ("PropagationDelay", 33),
   ("LunarElevationAngle", 30), ("SunElevationAngle", 58),
   ("LOSLunarExclusion", 28), ("LOSSunExclusion", 29),
   ("LOSSunIlluminationAngle", 187),
   ("ObjectExclusionAngle", 32), ("ThirdBodyObstruction", 61),
   ("TerrainMask", 67), ("AzElMask", 68), ("GeoExclusion", 71),
   ("GroundSampleDistance", 72), ("HeightAboveHorizon", 73),
   ("TerrainGrazingAngle", 74), ("CbObstruction", 91),
   ("SarAreaRate", 36), ("SarAzRes", 37), ("SarCNR", 38), ("SarIntTime", 40),
   ("SarPTCR", 41), ("SarSCR", 42), ("SarSigmaN", 43), ("SarSNR", 44),
   ("SarCNRJamming", 105), ("SarJOverS", 106), ("SarSCRJamming", 115),
   ("SarSNRJamming", 116), ("SarOrthoPolCNR", 107),
   ("SarOrthoPolCNRJamming", 108), ("SarOrthoPolJOverS", 109),
   ("SarOrthoPolPTCR", 110), ("SarOrthoPolSCR", 111),
   ("SarOrthoPolSCRJamming", 112), ("SarOrthoPolSNR", 113),
   ("SarOrthoPolSNRJamming", 114),
   ("SrchTrkClearDoppler", 46), ("SrchTrkDwellTime", 47),
   ("SrchTrkIntegratedPDet", 48), ("SrchTrkIntegratedPulses", 49),
   ("SrchTrkIntegratedSNR", 50), ("SrchTrkIntegrationTime", 51),
   ("SrchTrkMLCFilter", 52), ("SrchTrkSinglePulsePDet", 53),
   ("SrchTrkSinglePulseSNR", 54), ("SrchTrkSLCFilter", 55),
   ("SrchTrkUnambigDoppler", 56), ("SrchTrkUnambigRange", 57),
   ("SrchTrkDwellTimeJamming", 117), ("SrchTrkIntegratedJOverS", 118),
   ("SrchTrkIntegratedPDetJamming", 119),
   ("SrchTrkIntegratedPulsesJamming", 120),
   ("SrchTrkIntegratedSNRJamming", 121),
   ("SrchTrkIntegrationTimeJamming", 122),
   ("SrchTrkSinglePulseJOverS", 139), ("SrchTrkSinglePulsePDetJamming", 140),
   ("SrchTrkSinglePulseSNRJamming", 141),
   ("SrchTrkOrthoPolDwellTime", 123), ("SrchTrkOrthoPolDwellTimeJamming", 124),
   ("SrchTrkOrthoPolIntegratedJOverS", 125),
   ("SrchTrkOrthoPolIntegratedPDet", 126),
   ("SrchTrkOrthoPolIntegratedPDetJamming", 127),
   ("SrchTrkOrthoPolIntegratedPulses", 128),
   ("SrchTrkOrthoPolIntegratedPulsesJamming", 129),
   ("SrchTrkOrthoPolIntegratedSNR", 130),
   ("SrchTrkOrthoPolIntegratedSNRJamming", 131),
   ("SrchTrkOrthoPolIntegrationTime", 132),
   ("SrchTrkOrthoPolIntegrationTimeJamming", 133),
   ("SrchTrkOrthoPolSinglePulseJOverS", 134),
   ("SrchTrkOrthoPolSinglePulsePDet", 135),
   ("SrchTrkOrthoPolSinglePulsePDetJamming", 136),
   ("SrchTrkOrthoPolSinglePulseSNR", 137),
   ("SrchTrkOrthoPolSinglePulseSNRJamming", 138),
   ("Matlab", 31), ("CrdnCondition", 104)]

/-- `constraint_type_map.get(target_name)`. -/
def constraintTypeOf (n : String) : Option Nat :=
  (constraintTypeMap.find? (fun p => p.1 == n)).map (·.2)

/-! ## Constraint application
(`FacilityComponent._set_constraints_after_creation`). -/

/-- Setting the min/max flags and values requested by a declarative entry on
a constraint object (`EnableMin = True; Min = ...` etc.). -/
def setBounds (c : LiveConstraint) (e : CEntry) : LiveConstraint :=
  let c1 := match e.min with
    | some v => { c with enableMin := true, minVal := v }
    | none => c
  match e.max with
  | some v => { c1 with enableMax := true, maxVal := v }
  | none => c1

/-- A constraint object freshly returned by `AddConstraint(code)`: its name
is the registry name of the code, both bounds disabled. -/
def newConstraint (n : String) (code : Nat) : LiveConstraint :=
  { name := n, ctype := code
    enableMin := false, minVal := 0, enableMax := false, maxVal := 0 }

/-- Search the live collection for the first constraint with the requested
name and set the entry's bounds on it (skipping the set when the min/max
interface is unavailable, as the per-entry `except: continue` does).
Returns `none` when no constraint with that name exists. -/
def updateByName (e : CEntry) : List LiveConstraint → Option (List LiveConstraint)
  | [] => none
  | c :: rest =>
    if c.name == e.name then
      some ((if c.supportsMinMax then setBounds c e else c) :: rest)
    else
      (updateByName e rest).map (c :: ·)

/-- One iteration of the constraint loop: skip a falsy name; otherwise
search-or-add, then set bounds.  An unknown name, a failed add, or a failed
min/max query skips the entry without failing. -/
def applyOneConstraint (cs : List LiveConstraint) (e : CEntry) : List LiveConstraint :=
  if e.name == "" then cs
  else
    match updateByName e cs with
    | some cs' => cs'
    | none =>
      match constraintTypeOf e.name with
      | some code =>
        let c0 := newConstraint e.name code
        if c0.supportsMinMax then cs ++ [setBounds c0 e] else cs ++ [c0]
      | none => cs

/-- The whole constraint loop of `_set_constraints_after_creation`. -/
def applyConstraints (cs : List LiveConstraint) (es : List CEntry) : List LiveConstraint :=
  es.foldl applyOneConstraint cs

/-! ## Satellite component (`components/satellite.py`) -/

/-- `PropagatorType.NAMES.get(prop_type, f"Unknown ({prop_type})")`. -/
def propagatorName (n : Nat) : String :=
  match n with
  | 0 => "HPOP (High Precision)"
  | 1 => "J2Perturbation"
  | 2 => "J4Perturbation"
  | 3 => "SGP4"
  | 4 => "SPK"
  | 5 => "TwoBody"
  | _ => "Unknown (" ++ toString n ++ ")"

/-- `prop_map.get(prop_str, PropagatorType.J2_PERTURBATION)` of
`SatelliteComponent.from_dict`. -/
def propOfString (s : String) : Nat :=
  if s == "HPOP" then 0
  else if s == "J2Perturbation" then 1
  else if s == "J4Perturbation" then 2
  else if s == "SGP4" then 3
  else if s == "SPK" then 4
  else if s == "TwoBody" then 5
  else 1

/-- The keyword arguments passed to `SatelliteComponent.create`. -/
structure SatKwargs where
  propagator : Nat
  semi_major_axis : ℚ
  eccentricity : ℚ
  inclination : ℚ
  raan : ℚ
  arg_of_perigee : ℚ
  true_anomaly : ℚ
  step : ℚ
  deriving Repr, DecidableEq

/-- `_configure_j2_orbit`: set the step, then write every classical element
into the converted representation and commit it. -/
def configureJ2Orbit (s : SatState) (k : SatKwargs) : SatState :=
  { s with
    step := k.step
    elems :=
      { semiMajorAxis := k.semi_major_axis, eccentricity := k.eccentricity
        inclination := k.inclination, argOfPerigee := k.arg_of_perigee
        raan := k.raan, trueAnomaly := k.true_anomaly } }

/-- `_configure_two_body_orbit`: same write sequence for the two-body
propagator. -/
def configureTwoBodyOrbit (s : SatState) (k : SatKwargs) : SatState :=
  { s with
    step := k.step
    elems :=
      { semiMajorAxis := k.semi_major_axis, eccentricity := k.eccentricity
        inclination := k.inclination, argOfPerigee := k.arg_of_perigee
        raan := k.raan, trueAnomaly := k.true_anomaly } }

/-- `SatelliteComponent._configure`: select the propagator type, then
configure the elements only for the J2 (code 1) and two-body (code 5)
kinds. -/
def configureSatellite (s : SatState) (k : SatKwargs) : SatState :=
  let s := { s with propType := k.propagator }
  if k.propagator == 1 then configureJ2Orbit s k
  else if k.propagator == 5 then configureTwoBodyOrbit s k
  else s

/-- `SatelliteComponent.create`: allocate a fresh backend satellite with the
scenario defaults, then `_configure`. -/
def createSatellite (sc : Scenario) (k : SatKwargs) : SatState :=
  configureSatellite
    { propType := sc.satDefaultProp, step := sc.satDefaultStep
      elems := sc.satDefaultElems, constraints := sc.satDefaultCons } k

/-- `SatelliteComponent.from_dict`: require `name`, resolve the propagator
tag, read the orbit sub-record with creation defaults, and create.  The
second component of the result is the list of backend objects allocated
(names passed to `scenario.Children.New`), recording that the name check
precedes any allocation. -/
def satFromDict (sc : Scenario) (cfg : Config) :
    Except STKErr (String × SatState) × List String :=
  if isBlank cfg.name then (.error .missingName, [])
  else
    let name := cfg.name.getD ""
    let prop := propOfString (cfg.propagator.getD "J2Perturbation")
    let o := cfg.orbit.getD default
    (.ok (name, createSatellite sc
      { propagator := prop
        semi_major_axis := o.semi_major_axis.getD 7000
        eccentricity := o.eccentricity.getD 0
        inclination := o.inclination.getD 0
        raan := o.raan.getD 0
        arg_of_perigee := o.arg_of_perigee.getD 0
        true_anomaly := o.true_anomaly.getD 0
        step := cfg.step.getD 60 }), [name])

/-! ### Satellite describe (`get_info`) -/

/-- `_get_propagator_info`: `{"type": NAMES[...], "type_id": ...}`. -/
structure PropInfo where
  type : String
  type_id : Nat
  deriving Repr, DecidableEq

/-- The `orbit` sub-dict of `_get_orbit_info`.  Outer `Option` = key present;
for `raan` / `true_anomaly` the inner `Option` models a stored `None` (a
failed read).  `error` is the exception marker key. -/
structure OrbitInfo where
  step : Option ℚ
  semi_major_axis : Option ℚ
  eccentricity : Option ℚ
  inclination : Option ℚ
  arg_of_perigee : Option ℚ
  raan : Option (Option ℚ)
  true_anomaly : Option (Option ℚ)
  error : Option String
  deriving Repr, DecidableEq

/-- Truthiness of the orbit-info dict (`if orbit_info:`). -/
def OrbitInfo.isEmpty (o : OrbitInfo) : Bool :=
  o.step.isNone && o.semi_major_axis.isNone && o.eccentricity.isNone &&
  o.inclination.isNone && o.arg_of_perigee.isNone && o.raan.isNone &&
  o.true_anomaly.isNone && o.error.isNone

/-- `_get_orbit_info`: the elements are read back only for the
J2-perturbation propagator (type 1); for every other propagator the dict
stays empty.  On the deterministic backend every read succeeds. -/
def getOrbitInfo (s : SatState) : OrbitInfo :=
  if s.propType == 1 then
    { step := some s.step
      semi_major_axis := some s.elems.semiMajorAxis
      eccentricity := some s.elems.eccentricity
      inclination := some s.elems.inclination
      arg_of_perigee := some s.elems.argOfPerigee
      raan := some (some s.elems.raan)
      true_anomaly := some (some s.elems.trueAnomaly)
      error := none }
  else
    { step := none, semi_major_axis := none, eccentricity := none
      inclination := none, arg_of_perigee := none, raan := none
      true_anomaly := none, error := none }

/-- `SatelliteComponent._get_constraints_info`: report only constraints whose
min/max interface is available and which have at least one bound enabled,
with the enabled values. -/
def satGetConstraintsInfo (cs : List LiveConstraint) : List CEntry :=
  cs.filterMap fun c =>
    if c.supportsMinMax then
      if c.enableMin || c.enableMax then
        some { name := c.name
               min := if c.enableMin then some c.minVal else none
               max := if c.enableMax then some c.maxVal else none }
      else none
    else none

/-- The dictionary produced by `SatelliteComponent.to_dict` for a loaded
satellite (the `"type"` key is the constant `"Satellite"`). -/
structure SatInfo where
  name : String
  propagator : PropInfo
  orbit : OrbitInfo
  constraints : List CEntry
  deriving Repr, DecidableEq

/-- `get_info` / `to_dict` of a loaded satellite. -/
def satGetInfo (name : String) (s : SatState) : SatInfo :=
  { name := name
    propagator := { type := propagatorName s.propType, type_id := s.propType }
    orbit := getOrbitInfo s
    constraints := satGetConstraintsInfo s.constraints }

/-! ### Facility describe (`get_info`) -/

/-- `_get_position_info` result: coordinates or an error marker. -/
structure PositionInfo where
  latitude : Option ℚ
  longitude : Option ℚ
  altitude : Option ℚ
  error : Option String
  deriving Repr, DecidableEq

/-- Truthiness of the position-info dict. -/
def PositionInfo.isEmpty (p : PositionInfo) : Bool :=
  p.latitude.isNone && p.longitude.isNone && p.altitude.isNone && p.error.isNone

/-- One entry of `FacilityComponent._get_constraints_info`: either a
line-of-sight marker (`{"name", "type": "LineOfSight", "enabled": True}`,
`isLOS = true`) or a min/max record (`{"name", "min"?, "max"?}`). -/
structure CInfoEntry where
  name : String
  isLOS : Bool
  min : Option ℚ
  max : Option ℚ
  deriving Repr, DecidableEq

/-- `FacilityComponent._get_constraints_info`: type-26 constraints are
reported as line-of-sight markers; the rest only when a bound is enabled. -/
def facConstraintInfo (c : LiveConstraint) : Option CInfoEntry :=
  if c.ctype == 26 then
    some { name := c.name, isLOS := true, min := none, max := none }
  else if c.supportsMinMax then
    if c.enableMin || c.enableMax then
      some { name := c.name, isLOS := false
             min := if c.enableMin then some c.minVal else none
             max := if c.enableMax then some c.maxVal else none }
    else none
  else none

/-- The whole constraints listing of a facility. -/
def facGetConstraintsInfo (cs : List LiveConstraint) : List CInfoEntry :=
  cs.filterMap facConstraintInfo

/-- The dictionary produced by `FacilityComponent.to_dict` for a loaded
facility (the `"type"` key is the constant `"Facility"`). -/
structure FacInfo where
  name : String
  position : PositionInfo
  constraints : List CInfoEntry
  deriving Repr, DecidableEq

/-- `get_info` / `to_dict` of a loaded facility on the deterministic
backend: `QueryPlanetodetic` returns the stored coordinates. -/
def facGetInfo (name : String) (f : FacState) : FacInfo :=
  { name := name
    position :=
      { latitude := some f.latitude, longitude := some f.longitude
        altitude := some f.altitude, error := none }
    constraints := facGetConstraintsInfo f.constraints }

/-! ## Facility component creation (`components/facility.py`) -/

/-- `FacilityComponent.create` / `_configure`: allocate with the scenario's
default constraints and assign the geodetic position. -/
def createFacility (sc : Scenario) (lat lon alt : ℚ) : FacState :=
  { latitude := lat, longitude := lon, altitude := alt
    constraints := sc.facDefaultCons }

/-- `FacilityComponent.from_dict`: require `name`, create with the position
(defaults 0.0), then apply the declarative constraints.  Second component:
allocation log, as in `satFromDict`. -/
def facFromDict (sc : Scenario) (cfg : Config) :
    Except STKErr (String × FacState) × List String :=
  if isBlank cfg.name then (.error .missingName, [])
  else
    let name := cfg.name.getD ""
    let pos := cfg.position.getD default
    let f := createFacility sc (pos.latitude.getD 0) (pos.longitude.getD 0)
      (pos.altitude.getD 0)
    let f := if cfg.constraints.isEmpty then f
      else { f with constraints := applyConstraints f.constraints cfg.constraints }
    (.ok (name, f), [name])

/-! ## Exporter / normalizer (`exports/component_exporter.py`) -/

/-- The characters before the first `(`, i.e. `split("(")[0]`. -/
def beforeParen : List Char → List Char
  | [] => []
  | c :: cs => if c = Char.ofNat 40 then [] else c :: beforeParen cs

/-- `prop_type.split("(")[0].strip()` applied when `"(" in prop_type`. -/
def stripParen (s : String) : String :=
  if s.data.contains (Char.ofNat 40) then
    (String.mk (beforeParen s.data)).trim
  else s

/-- Python `int()` truncation toward zero on a rational. -/
def truncQ (q : ℚ) : ℤ :=
  if 0 ≤ q then ⌊q⌋ else ⌈q⌉

/-- `int(alt) if alt == int(alt) else alt`: numerically the identity (the
int/float distinction of the JSON output has no rational counterpart). -/
def intCoerce (q : ℚ) : ℚ :=
  if q == (truncQ q : ℚ) then (truncQ q : ℚ) else q

/-- The satellite branch of `ComponentExporter._normalize_component_dict`:
collapse the propagator info to the bare tag, keep a present `step` (the
`float(...)` coercion and its dead `None` guard are identities here), and
rebuild the orbit sub-record only when no error marker is present, dropping
`None`-valued `raan` / `true_anomaly`. -/
def normalizeSatellite (info : SatInfo) : Config :=
  let propTag := stripParen info.propagator.type
  let o := info.orbit
  let step := if o.isEmpty then none else o.step
  let orbit : Option OrbitConfig :=
    if o.isEmpty then none
    else if o.error.isNone then
      let ob : OrbitConfig :=
        { semi_major_axis := o.semi_major_axis
          eccentricity := o.eccentricity
          inclination := o.inclination
          raan := o.raan.bind id
          arg_of_perigee := o.arg_of_perigee
          true_anomaly := o.true_anomaly.bind id }
      if ob == default then none else some ob
    else none
  { type := some "Satellite", name := some info.name
    propagator := some propTag, orbit := orbit, step := step
    position := none, constraints := [] }

/-- The facility branch of `_normalize_component_dict`: keep the position
when read without error (coercing an integral altitude), and drop the
line-of-sight entries from the constraint list. -/
def normalizeFacility (info : FacInfo) : Config :=
  let p := info.position
  let position : Option PosConfig :=
    if !p.isEmpty && p.error.isNone then
      some { latitude := some (p.latitude.getD 0)
             longitude := some (p.longitude.getD 0)
             altitude := some (intCoerce (p.altitude.getD 0)) }
    else none
  let constraints : List CEntry :=
    info.constraints.filterMap fun c =>
      if !c.isLOS then some { name := c.name, min := c.min, max := c.max }
      else none
  { type := some "Facility", name := some info.name
    propagator := none, orbit := none, step := none
    position := position, constraints := constraints }

/-- The full facility export pipeline on the constraint list: read the live
constraints (`_get_constraints_info`) and normalize them. -/
def exportedFacConstraints (cs : List LiveConstraint) : List CEntry :=
  (facGetConstraintsInfo cs).filterMap fun c =>
    if !c.isLOS then some { name := c.name, min := c.min, max := c.max }
    else none

/-! ## Component factory (`components/factory.py`) -/

/-- The component kinds with a registered class. -/
inductive ComponentKind where
  | satellite
  | facility
  deriving Repr, DecidableEq

/-- `_type_name_map`: type-tag synonyms → kind. -/
def typeNameMap (s : String) : Option ComponentKind :=
  if s == "Satellite" then some .satellite
  else if s == "satellite" then some .satellite
  else if s == "Facility" then some .facility
  else if s == "facility" then some .facility
  else if s == "GroundStation" then some .facility
  else if s == "ground_station" then some .facility
  else none

/-- A live component of either kind. -/
inductive LiveComponent where
  | sat (s : SatState)
  | fac (f : FacState)
  deriving Repr, DecidableEq

/-- `ComponentFactory.create`: check the `type` tag, dispatch to the kind's
`from_dict`.  Second component: allocation log. -/
def factoryCreate (sc : Scenario) (cfg : Config) :
    Except STKErr (String × LiveComponent) × List String :=
  if isBlank cfg.type then (.error .missingType, [])
  else
    match typeNameMap (cfg.type.getD "") with
    | none => (.error .unknownType, [])
    | some .satellite =>
      let (r, al) := satFromDict sc cfg
      (r.map (fun p => (p.1, .sat p.2)), al)
    | some .facility =>
      let (r, al) := facFromDict sc cfg
      (r.map (fun p => (p.1, .fac p.2)), al)

/-- The mutable state of a `ComponentFactory` instance
(`_created_components`) together with the backend allocation log. -/
structure FactoryState where
  tracked : List (String × LiveComponent)
  allocated : List String
  deriving Repr, DecidableEq

/-- `ComponentFactory.create` including its effect on the factory state: the
component is appended to `_created_components` only after `from_dict`
returned. -/
def factoryCreateTracked (sc : Scenario) (st : FactoryState) (cfg : Config) :
    FactoryState × Except STKErr (String × LiveComponent) :=
  let (r, al) := factoryCreate sc cfg
  match r with
  | .ok c =>
    ({ tracked := st.tracked ++ [c], allocated := st.allocated ++ al }, .ok c)
  | .error e =>
    ({ st with allocated := st.allocated ++ al }, .error e)

/-- `ComponentFactory.create_many`: a plain loop over `self.create(config)`
with no per-item handling — the first exception propagates, keeping the
components created so far.  Returns the factory state after the loop, the
list the loop accumulated, and the propagated error, if any. -/
def createMany (sc : Scenario) (st : FactoryState) :
    List Config → FactoryState × List (String × LiveComponent) × Option STKErr
  | [] => (st, [], none)
  | cfg :: rest =>
    match factoryCreateTracked sc st cfg with
    | (st', .ok c) =>
      let (st'', l, e) := createMany sc st' rest
      (st'', c :: l, e)
    | (st', .error e) => (st', [], some e)

/-! ## Satellite modifier (`modifiers/satellite_modifier.py`) -/

/-- A partial orbit patch: only the present fields are applied. -/
structure OrbitPatch where
  semi_major_axis : Option ℚ
  eccentricity : Option ℚ
  inclination : Option ℚ
  raan : Option ℚ
  arg_of_perigee : Option ℚ
  true_anomaly : Option ℚ
  deriving Repr, DecidableEq

/-- A constraint patch entry of `_apply_constraint_changes`: `min` / `max`
set a bound, the explicit disable flags turn one off. -/
structure ModCEntry where
  name : String
  min : Option ℚ
  disable_min : Bool
  max : Option ℚ
  disable_max : Bool
  deriving Repr, DecidableEq

/-- The `changes` dict accepted by `SatelliteModifier.apply`. -/
structure SatChanges where
  orbit : Option OrbitPatch
  propagator : Option ℚ    -- the only handled key is "step"
  constraints : Option (List ModCEntry)
  deriving Repr, DecidableEq

/-- `_modify_j2_orbit`: write only the fields present in the patch into the
converted classical representation, commit, re-propagate.  The step is not
touched. -/
def modifyJ2Orbit (s : SatState) (p : OrbitPatch) : SatState :=
  { s with elems :=
    { semiMajorAxis := p.semi_major_axis.getD s.elems.semiMajorAxis
      eccentricity := p.eccentricity.getD s.elems.eccentricity
      inclination := p.inclination.getD s.elems.inclination
      raan := p.raan.getD s.elems.raan
      argOfPerigee := p.arg_of_perigee.getD s.elems.argOfPerigee
      trueAnomaly := p.true_anomaly.getD s.elems.trueAnomaly } }

/-- `_modify_two_body_orbit`: the same partial write sequence. -/
def modifyTwoBodyOrbit (s : SatState) (p : OrbitPatch) : SatState :=
  { s with elems :=
    { semiMajorAxis := p.semi_major_axis.getD s.elems.semiMajorAxis
      eccentricity := p.eccentricity.getD s.elems.eccentricity
      inclination := p.inclination.getD s.elems.inclination
      raan := p.raan.getD s.elems.raan
      argOfPerigee := p.arg_of_perigee.getD s.elems.argOfPerigee
      trueAnomaly := p.true_anomaly.getD s.elems.trueAnomaly } }

/-- `_apply_orbit_changes`: dispatch on the live propagator type; any other
kind raises `STKModifyError`. -/
def applyOrbitChanges (s : SatState) (p : OrbitPatch) : Except STKErr SatState :=
  if s.propType == 1 then .ok (modifyJ2Orbit s p)
  else if s.propType == 5 then .ok (modifyTwoBodyOrbit s p)
  else .error .unsupportedPropagator

/-- `_apply_propagator_changes`: only `"step"` is handled, and only for the
J2 and two-body kinds (others are silently ignored). -/
def applyPropagatorChanges (s : SatState) (step : ℚ) : SatState :=
  if s.propType == 1 || s.propType == 5 then { s with step := step } else s

/-- One entry of `_apply_constraint_changes`: `GetActiveConstraint` fails for
an absent name and the min/max query fails on the boolean kind; both
exceptions escape the surrounding `try` as `STKModifyError`. -/
def applyModConstraint (cs : List LiveConstraint) (e : ModCEntry) :
    Except STKErr (List LiveConstraint) :=
  if e.name == "" then .ok cs
  else
    match cs.findIdx? (fun c => c.name == e.name) with
    | none => .error .modifyFailed
    | some i =>
      match cs[i]? with
      | none => .error .modifyFailed
      | some c =>
        if !c.supportsMinMax then .error .modifyFailed
        else
          let c := match e.min with
            | some v => { c with enableMin := true, minVal := v }
            | none => if e.disable_min then { c with enableMin := false } else c
          let c := match e.max with
            | some v => { c with enableMax := true, maxVal := v }
            | none => if e.disable_max then { c with enableMax := false } else c
          .ok (cs.set i c)

/-- The constraint loop of `_apply_constraint_changes`. -/
def applyModConstraints (cs : List LiveConstraint) (es : List ModCEntry) :
    Except STKErr (List LiveConstraint) :=
  es.foldlM applyModConstraint cs

/-- `SatelliteModifier.apply` on a loaded target (`none` models an unloaded
modifier, for which `_ensure_loaded` raises): orbit changes, then propagator
changes, then constraint changes. -/
def modifierApply (target : Option SatState) (ch : SatChanges) :
    Except STKErr SatState := do
  match target with
  | none => throw .modifyNotLoaded
  | some s =>
    let s ← match ch.orbit with
      | some p => applyOrbitChanges s p
      | none => pure s
    let s := match ch.propagator with
      | some step => applyPropagatorChanges s step
      | none => s
    match ch.constraints with
    | some es => do
      let cs ← applyModConstraints s.constraints es
      pure { s with constraints := cs }
    | none => pure s

/-! ## Binding life-cycle (`components/base.py`)

`ComponentBase.create` / `load_from_existing` / `delete` with every backend
call's success made explicit, because the claims about them concern failure
behaviour. -/

/-- The handle pair of a component: `_stk_object` and `_interface`. -/
structure BindState where
  stkObject : Option Unit
  interface : Option Unit
  deriving Repr, DecidableEq

/-- Success flags for the backend calls an operation performs. -/
structure BindOracle where
  allocOk : Bool      -- scenario.Children.New
  resolveOk : Bool    -- root.GetObjectFromPath
  ifaceOk : Bool      -- QueryInterface in _get_interface
  configOk : Bool     -- _configure
  unloadOk : Bool     -- _stk_object.Unload
  deriving Repr, DecidableEq

/-- The both-set-or-both-unset binding invariant of the spec. -/
def BindState.consistent (s : BindState) : Bool :=
  s.stkObject.isSome == s.interface.isSome

/-- `ComponentBase.create`: assign `_stk_object`, then `_interface`, then
configure; the first failing call raises `STKComponentError`, keeping every
assignment already made. -/
def createOp (o : BindOracle) (s : BindState) : BindState × Option STKErr :=
  if !o.allocOk then (s, some .creationFailed)
  else
    let s := { s with stkObject := some () }
    if !o.ifaceOk then (s, some .creationFailed)
    else
      let s := { s with interface := some () }
      if !o.configOk then (s, some .creationFailed) else (s, none)

/-- `ComponentBase.load_from_existing`: resolve, then query the interface. -/
def loadOp (o : BindOracle) (s : BindState) : BindState × Option STKErr :=
  if !o.resolveOk then (s, some .creationFailed)
  else
    let s := { s with stkObject := some () }
    if !o.ifaceOk then (s, some .creationFailed)
    else ({ s with interface := some () }, none)

/-- `ComponentBase.delete`: a no-op when `_stk_object` is unset; otherwise
`Unload` and, on success, clear both handles. -/
def deleteOp (o : BindOracle) (s : BindState) : BindState × Option STKErr :=
  match s.stkObject with
  | none => (s, none)
  | some _ =>
    if o.unloadOk then ({ stkObject := none, interface := none }, none)
    else (s, some .deleteFailed)

/-- `delete()` followed by `delete()`, the second call running only when the
first returned normally (an exception aborts the sequence). -/
def deleteTwice (o o' : BindOracle) (s : BindState) : BindState × Option STKErr :=
  match deleteOp o s with
  | (s1, none) => deleteOp o' s1
  | (s1, some e) => (s1, some e)

/-! ## Scene export (`ComponentExporter.export_all_components`) -/

/-- A child of the scene as the exporter sees it: its backend class and
instance names, whether `load_from_existing` succeeds, and whether
normalizing/writing it succeeds. -/
structure SceneChild where
  className : String
  instanceName : String
  loadOk : Bool
  exportOk : Bool
  deriving Repr, DecidableEq

/-- `_component_class_map`: the class names the exporter recognizes. -/
def recognizedClass (s : String) : Bool :=
  s == "Satellite" || s == "Facility"

/-- `_load_all_components`: keep the recognized children that load. -/
def loadAllComponents (children : List SceneChild) : List SceneChild :=
  children.filter fun ch => recognizedClass ch.className && ch.loadOk

/-- First-occurrence deduplication — the key order of a Python dict filled
by insertion. -/
def uniqueKeys : List String → List String
  | [] => []
  | a :: l => a :: uniqueKeys (l.filter (fun b => b ≠ a))
  termination_by l => l.length
  decreasing_by
    simp only [List.length_cons]
    exact Nat.lt_succ_of_le (List.length_filter_le _ _)

/-- The summary manifest (`summary.json`). -/
structure ExportSummary where
  total : Nat
  byType : List (String × Nat)
  files : List String
  deriving Repr, DecidableEq

/-- `export_all_components`: load, group by kind, export each component of
each group (skipping the ones whose normalization/write fails), and build
the summary. -/
def exportAllComponents (children : List SceneChild) : ExportSummary :=
  let comps := loadAllComponents children
  if comps.isEmpty then { total := 0, byType := [], files := [] }
  else
    let kinds := uniqueKeys (comps.map (·.className))
    { total := comps.length
      byType := kinds.map fun k =>
        (k, (comps.filter (fun c => c.className == k)).length)
      files := kinds.flatMap fun k =>
        ((comps.filter (fun c => c.className == k)).filter (·.exportOk)).map
          fun c => k.toLower ++ "/" ++ c.instanceName ++ "_config.json" }

/-! ## Concrete fixtures used by witnesses and counterexamples -/

/-- A scenario whose fresh objects carry STK-like defaults: J2 propagator,
60 s step, and the implicit line-of-sight constraint. -/
def sc0 : Scenario :=
  { satDefaultProp := 1, satDefaultStep := 60
    satDefaultElems := ⟨7000, 0, 0, 0, 0, 0⟩
    satDefaultCons := [losDefault], facDefaultCons := [losDefault] }

/-- An empty factory. -/
def st0 : FactoryState := { tracked := [], allocated := [] }

/-- A minimal valid satellite record. -/
def cfgSatA : Config :=
  { type := some "Satellite", name := some "SatA", propagator := none
    orbit := none, step := none, position := none, constraints := [] }

/-- A satellite record with no `name` field. -/
def cfgSatNoName : Config :=
  { type := some "Satellite", name := none, propagator := none
    orbit := none, step := none, position := none, constraints := [] }

/-- Another valid satellite record. -/
def cfgSatC : Config :=
  { type := some "Satellite", name := some "SatC", propagator := none
    orbit := none, step := none, position := none, constraints := [] }

/-- The satellite state `cfgSatA` creates under `sc0`. -/
def satA : SatState :=
  { propType := 1, step := 60, elems := ⟨7000, 0, 0, 0, 0, 0⟩
    constraints := [losDefault] }

/-- An unbound component (`__init__` sets both handles to `None`). -/
def unboundB : BindState := { stkObject := none, interface := none }

/-- An all-successful backend. -/
def oracleAllOk : BindOracle :=
  { allocOk := true, resolveOk := true, ifaceOk := true
    configOk := true, unloadOk := true }

/-- A backend whose `QueryInterface` fails after a successful allocation. -/
def oracleIfaceFail : BindOracle :=
  { allocOk := true, resolveOk := true, ifaceOk := false
    configOk := true, unloadOk := true }

/-! ## C3 — binding invariant -/

/-- C3 counterexample: when `scenario.Children.New` succeeds but the
subsequent `QueryInterface` of `_get_interface` raises, `create` raises
`STKComponentError` with `_stk_object` set and `_interface` still `None` —
a half-bound state, contradicting the both-or-neither claim. -/
theorem create_halfBound_counterexample :
    (createOp oracleIfaceFail unboundB).2 = some .creationFailed ∧
    (createOp oracleIfaceFail unboundB).1.stkObject = some () ∧
    (createOp oracleIfaceFail unboundB).1.interface = none ∧
    (createOp oracleIfaceFail unboundB).1.consistent = false := by
  refine ⟨rfl, rfl, rfl, rfl⟩

/-- C3 amended: `delete` preserves a consistent binding even when it raises;
`create` and `load_from_existing` on a fresh component leave it consistent
exactly when a successful allocation/resolve is not followed by a failing
typed-interface query; in particular any of the three operations that
returns without error leaves the component consistently bound. -/
theorem binding_consistency (o : BindOracle) (s : BindState) :
    (s.consistent = true → (deleteOp o s).1.consistent = true) ∧
    ((createOp o unboundB).1.consistent = (!o.allocOk || o.ifaceOk)) ∧
    ((loadOp o unboundB).1.consistent = (!o.resolveOk || o.ifaceOk)) ∧
    ((createOp o unboundB).2 = none → (createOp o unboundB).1.consistent = true) ∧
    ((loadOp o unboundB).2 = none → (loadOp o unboundB).1.consistent = true) := by
  obtain ⟨so, io⟩ := s
  obtain ⟨a, r, i, c, u⟩ := o
  cases so <;> cases io <;> cases a <;> cases r <;> cases i <;> cases c <;>
    cases u <;> simp [deleteOp, createOp, loadOp, BindState.consistent, unboundB]

/-- Witness for `binding_consistency` at an all-successful backend and an
unbound component. -/
theorem binding_consistency_witness :
    (deleteOp oracleAllOk unboundB).1.consistent = true ∧
    (createOp oracleAllOk unboundB).1.consistent = true := by
  exact ⟨(binding_consistency oracleAllOk unboundB).1 rfl,
    (binding_consistency oracleAllOk unboundB).2.1.trans rfl⟩

/-! ## C8 — delete idempotence -/

/-- C8: deleting an unbound component is an error-free no-op, and `delete()`
followed by `delete()` (the second call running when the first returned
normally) behaves exactly like a single `delete()`. -/
theorem delete_idempotent (s : BindState) (o o' : BindOracle) :
    (s.stkObject = none → deleteOp o s = (s, none)) ∧
    deleteTwice o o' s = deleteOp o s := by
  obtain ⟨so, io⟩ := s
  constructor
  · intro h
    subst h
    rfl
  · cases so <;> cases h : o.unloadOk <;>
      simp [deleteTwice, deleteOp, h]

/-- Witness for `delete_idempotent` on an unbound component. -/
theorem delete_idempotent_witness :
    deleteOp oracleAllOk unboundB = (unboundB, none) ∧
    deleteTwice oracleAllOk oracleAllOk unboundB = deleteOp oracleAllOk unboundB := by
  exact ⟨(delete_idempotent unboundB oracleAllOk oracleAllOk).1 rfl,
    (delete_idempotent unboundB oracleAllOk oracleAllOk).2⟩

/-! ## C7 — factory error raising with atomicity -/

/-- C7: a record with a falsy `type` tag raises the missing-type error, an
unrecognized tag raises the unknown-type error, and a satellite or facility
record with a falsy `name` raises the missing-name error; in each case the
factory state — its `_created_components` list and the backend allocation
log — is exactly unchanged, so the error precedes any allocation. -/
theorem factory_create_errors (sc : Scenario) (st : FactoryState) (cfg : Config) :
    (isBlank cfg.type = true →
      factoryCreateTracked sc st cfg = (st, .error .missingType)) ∧
    (isBlank cfg.type = false → typeNameMap (cfg.type.getD "") = none →
      factoryCreateTracked sc st cfg = (st, .error .unknownType)) ∧
    (∀ k, typeNameMap (cfg.type.getD "") = some k →
      isBlank cfg.type = false → isBlank cfg.name = true →
      factoryCreateTracked sc st cfg = (st, .error .missingName)) := by
  refine ⟨fun h1 => ?_, fun h1 h2 => ?_, fun k hk h1 h2 => ?_⟩
  · simp [factoryCreateTracked, factoryCreate, h1]
  · simp [factoryCreateTracked, factoryCreate, h1, h2]
  · cases k <;>
      simp [factoryCreateTracked, factoryCreate, satFromDict, facFromDict,
        Except.map, h1, h2, hk]

/-- Witness for `factory_create_errors` at three concrete malformed
records. -/
theorem factory_create_errors_witness :
    factoryCreateTracked sc0 st0
        { type := none, name := some "X", propagator := none, orbit := none
          step := none, position := none, constraints := [] }
      = (st0, .error .missingType) ∧
    factoryCreateTracked sc0 st0
        { type := some "Rover", name := some "X", propagator := none
          orbit := none, step := none, position := none, constraints := [] }
      = (st0, .error .unknownType) ∧
    factoryCreateTracked sc0 st0 cfgSatNoName = (st0, .error .missingName) := by
  refine ⟨(factory_create_errors sc0 st0 _).1 rfl,
    (factory_create_errors sc0 st0 _).2.1 rfl rfl,
    (factory_create_errors sc0 st0 _).2.2 .satellite rfl rfl rfl⟩

/-! ## C2 — batch behaviour of `create_many` -/

/-- C2 counterexample: on a batch of three records whose second lacks
`name`, `create_many` creates only the first component and aborts with the
missing-name error — the third record is never processed, contrary to the
partial-failure claim. -/
theorem createMany_aborts_counterexample :
    (createMany sc0 st0 [cfgSatA, cfgSatNoName, cfgSatC]).2.2
        = some .missingName ∧
    ((createMany sc0 st0 [cfgSatA, cfgSatNoName, cfgSatC]).1.tracked.map
        Prod.fst) = ["SatA"] := by
  exact ⟨rfl, rfl⟩

/-- C2 amended: `create_many` has no per-item error handling: it creates the
components before the first failing record, propagates that record's error,
and never reaches the records after it.  With a valid first record and a
second record of a registered kind lacking `name`, the result is the state
after the first creation with the missing-name error, the third record
untouched. -/
theorem createMany_stops_at_first_error (sc : Scenario) (st st1 : FactoryState)
    (c1 c2 c3 : Config) (comp : String × LiveComponent) (k : ComponentKind)
    (h1 : factoryCreateTracked sc st c1 = (st1, .ok comp))
    (h2t : isBlank c2.type = false)
    (h2k : typeNameMap (c2.type.getD "") = some k)
    (h2n : isBlank c2.name = true) :
    createMany sc st [c1, c2, c3] = (st1, [comp], some .missingName) := by
  have h2 : factoryCreateTracked sc st1 c2 = (st1, .error .missingName) :=
    (factory_create_errors sc st1 c2).2.2 k h2k h2t h2n
  simp [createMany, h1, h2]

/-- Witness for `createMany_stops_at_first_error` on the concrete
three-record batch. -/
theorem createMany_stops_witness :
    createMany sc0 st0 [cfgSatA, cfgSatNoName, cfgSatC]
      = ({ tracked := [("SatA", .sat satA)], allocated := ["SatA"] },
         [("SatA", .sat satA)], some .missingName) := by
  exact createMany_stops_at_first_error sc0 st0 _ cfgSatA cfgSatNoName cfgSatC
    ("SatA", .sat satA) .satellite rfl rfl rfl rfl

/-! ## C9 — unrecognized propagator tags default silently to J2 -/

/-- C9: a satellite record whose `propagator` string is none of the six
recognized tags does not raise: `from_dict` behaves exactly as if
`"J2Perturbation"` had been given, configuring the J2 propagator with the
record's orbital elements. -/
theorem unknown_propagator_defaults_to_J2 (sc : Scenario) (cfg : Config)
    (ps : String) (hp : cfg.propagator = some ps)
    (hsix : ps ∉ (["HPOP", "J2Perturbation", "J4Perturbation", "SGP4",
        "SPK", "TwoBody"] : List String))
    (hname : isBlank cfg.name = false) :
    satFromDict sc cfg
      = satFromDict sc { cfg with propagator := some "J2Perturbation" } ∧
    (satFromDict sc cfg).1.toOption.isSome = true := by
  simp only [List.mem_cons, List.not_mem_nil, or_false, not_or] at hsix
  obtain ⟨h1, h2, h3, h4, h5, h6⟩ := hsix
  have hprop : propOfString ps = 1 := by
    simp [propOfString, h1, h2, h3, h4, h5, h6]
  have hpropJ2 : propOfString "J2Perturbation" = 1 := by decide
  constructor
  · simp [satFromDict, hname, hp, hprop, hpropJ2]
  · simp [satFromDict, hname, Except.toOption]

/-- Witness for `unknown_propagator_defaults_to_J2` with the unrecognized
tag `"Kepler"`. -/
theorem unknown_propagator_witness :
    satFromDict sc0
        { type := some "Satellite", name := some "K1"
          propagator := some "Kepler", orbit := none, step := none
          position := none, constraints := [] }
      = satFromDict sc0
        { type := some "Satellite", name := some "K1"
          propagator := some "J2Perturbation", orbit := none, step := none
          position := none, constraints := [] } := by
  exact (unknown_propagator_defaults_to_J2 sc0
    { type := some "Satellite", name := some "K1"
      propagator := some "Kepler", orbit := none, step := none
      position := none, constraints := [] }
    "Kepler" rfl (by decide) rfl).1

/-! ## C4 — patch minimality of the satellite modifier -/

/-- C4: applying the patch `{"orbit": {"inclination": 98.5}}` through the
satellite modifier to a loaded satellite with the J2 or two-body propagator
succeeds, sets the inclination, and leaves every other orbital element, the
propagation step, the propagator type and the constraint set unchanged. -/
theorem modifier_patch_minimality (s : SatState)
    (h : s.propType = 1 ∨ s.propType = 5) :
    ∃ s', modifierApply (some s)
        { orbit := some
            { semi_major_axis := none, eccentricity := none
              inclination := some (197/2), raan := none
              arg_of_perigee := none, true_anomaly := none }
          propagator := none, constraints := none } = .ok s' ∧
      s'.elems.inclination = 197/2 ∧
      s'.elems.semiMajorAxis = s.elems.semiMajorAxis ∧
      s'.elems.eccentricity = s.elems.eccentricity ∧
      s'.elems.raan = s.elems.raan ∧
      s'.elems.argOfPerigee = s.elems.argOfPerigee ∧
      s'.elems.trueAnomaly = s.elems.trueAnomaly ∧
      s'.step = s.step ∧ s'.propType = s.propType ∧
      s'.constraints = s.constraints := by
  rcases h with h | h
  · refine ⟨modifyJ2Orbit s
        { semi_major_axis := none, eccentricity := none
          inclination := some (197/2), raan := none
          arg_of_perigee := none, true_anomaly := none },
      ?_, rfl, rfl, rfl, rfl, rfl, rfl, rfl, rfl, rfl⟩
    simp [modifierApply, applyOrbitChanges, h, pure, Except.pure, bind, Except.bind]
  · refine ⟨modifyTwoBodyOrbit s
        { semi_major_axis := none, eccentricity := none
          inclination := some (197/2), raan := none
          arg_of_perigee := none, true_anomaly := none },
      ?_, rfl, rfl, rfl, rfl, rfl, rfl, rfl, rfl, rfl⟩
    simp [modifierApply, applyOrbitChanges, h, pure, Except.pure, bind, Except.bind]

/-- Witness for `modifier_patch_minimality` on a concrete loaded J2
satellite. -/
theorem modifier_patch_minimality_witness :
    ∃ s', modifierApply (some satA)
        { orbit := some
            { semi_major_axis := none, eccentricity := none
              inclination := some (197/2), raan := none
              arg_of_perigee := none, true_anomaly := none }
          propagator := none, constraints := none } = .ok s' ∧
      s'.elems.inclination = 197/2 ∧
      s'.elems.semiMajorAxis = satA.elems.semiMajorAxis ∧
      s'.elems.eccentricity = satA.elems.eccentricity ∧
      s'.elems.raan = satA.elems.raan ∧
      s'.elems.argOfPerigee = satA.elems.argOfPerigee ∧
      s'.elems.trueAnomaly = satA.elems.trueAnomaly ∧
      s'.step = satA.step ∧ s'.propType = satA.propType ∧
      s'.constraints = satA.constraints := by
  exact modifier_patch_minimality satA (Or.inl rfl)

/-! ## Export characterization -/

/-- The declarative record a live min/max constraint exports to. -/
def entryOfLive (c : LiveConstraint) : CEntry :=
  { name := c.name
    min := if c.enableMin then some c.minVal else none
    max := if c.enableMax then some c.maxVal else none }

/-- `filterMap` over a `filter` as a single `filterMap`. -/
theorem filterMap_filter_eq {α β : Type} (p : α → Bool) (f : α → Option β)
    (l : List α) :
    (l.filter p).filterMap f
      = l.filterMap (fun a => if p a then f a else none) := by
  induction l with
  | nil => rfl
  | cons a l ih =>
    cases h : p a <;> simp [List.filter_cons, List.filterMap_cons, h, ih]

/-- Characterization of the facility export pipeline on constraints: reading
the live constraints and normalizing keeps exactly the non-boolean
constraints with an enabled bound and maps each to its record. -/
theorem exportedFacConstraints_eq (cs : List LiveConstraint) :
    exportedFacConstraints cs
      = cs.filterMap (fun c =>
          if (c.ctype != 26) && (c.enableMin || c.enableMax) then
            some (entryOfLive c)
          else none) := by
  unfold exportedFacConstraints facGetConstraintsInfo
  rw [List.filterMap_filterMap]
  apply List.filterMap_congr
  intro c _
  by_cases h26 : c.ctype = 26
  · simp [facConstraintInfo, h26]
  · by_cases hb : (c.enableMin || c.enableMax) = true
    · have hb2 : c.enableMin = true ∨ c.enableMax = true := by simpa using hb
      simp [facConstraintInfo, LiveConstraint.supportsMinMax, h26, hb, hb2,
        entryOfLive]
    · simp [facConstraintInfo, LiveConstraint.supportsMinMax, h26, hb]

/-! ## C5 — constraint omission invariant -/

/-- C5: a live constraint with neither bound enabled and not of the boolean
line-of-sight kind contributes nothing to the normalized export: removing
all such constraints from the live set leaves the exported facility
constraint list unchanged, every exported facility entry carries a `min` or
a `max`, the satellite describe step likewise reports only bound-carrying
constraints, and a normalized satellite record contains no constraints at
all. -/
theorem constraint_omission_invariant (cs : List LiveConstraint) :
    exportedFacConstraints cs
      = exportedFacConstraints
          (cs.filter fun c => c.ctype == 26 || c.enableMin || c.enableMax) ∧
    (exportedFacConstraints cs).all
      (fun e => e.min.isSome || e.max.isSome) = true ∧
    (satGetConstraintsInfo cs).all
      (fun e => e.min.isSome || e.max.isSome) = true ∧
    ∀ info : SatInfo, (normalizeSatellite info).constraints = [] := by
  refine ⟨?_, ?_, ?_, fun info => rfl⟩
  · rw [exportedFacConstraints_eq, exportedFacConstraints_eq,
      filterMap_filter_eq]
    apply List.filterMap_congr
    intro c _
    by_cases h26 : c.ctype = 26
    · simp [h26]
    · by_cases hb : (c.enableMin || c.enableMax) = true
      · have hb2 : c.enableMin = true ∨ c.enableMax = true := by simpa using hb
        simp [h26, hb, hb2]
      · simp [h26, hb]
  · rw [List.all_eq_true]
    intro e he
    rw [exportedFacConstraints_eq] at he
    obtain ⟨c, _, hfc⟩ := List.mem_filterMap.mp he
    by_cases hg : ((c.ctype != 26) && (c.enableMin || c.enableMax)) = true
    · rw [if_pos hg] at hfc
      obtain ⟨-, hb⟩ := Bool.and_eq_true_iff.mp hg
      cases hfc
      cases hm : c.enableMin
      · rw [hm] at hb
        simp only [Bool.false_or] at hb
        simp [entryOfLive, hm, hb]
      · simp [entryOfLive, hm]
    · rw [if_neg hg] at hfc
      exact absurd hfc (Option.some_ne_none e).symm.elim
  · rw [List.all_eq_true]
    intro e he
    obtain ⟨c, _, hfc⟩ := List.mem_filterMap.mp he
    by_cases hs : c.supportsMinMax = true
    · rw [if_pos hs] at hfc
      by_cases hb : (c.enableMin || c.enableMax) = true
      · rw [if_pos hb] at hfc
        cases hfc
        cases hm : c.enableMin
        · rw [hm] at hb
          simp only [Bool.false_or] at hb
          simp [hm, hb]
        · simp [hm]
      · rw [if_neg hb] at hfc
        exact absurd hfc (by simp)
    · rw [if_neg hs] at hfc
      exact absurd hfc (by simp)

/-! ## C6 — line-of-sight exclusion from export -/

/-- A concrete elevation-angle constraint with an enabled minimum. -/
def elevMin : LiveConstraint :=
  { name := "ElevationAngle", ctype := 14
    enableMin := true, minVal := 10, enableMax := false, maxVal := 0 }

/-- C6: line-of-sight constraints (type code 26) never reach the normalized
facility export — removing them from the live set leaves the export
unchanged — while every non-boolean constraint with an enabled bound is
preserved with its name and its enabled `min`/`max` values. -/
theorem los_excluded_from_export (cs : List LiveConstraint)
    (c : LiveConstraint) (hc : c ∈ cs) (h26 : c.ctype ≠ 26)
    (hb : (c.enableMin || c.enableMax) = true) :
    entryOfLive c ∈ exportedFacConstraints cs ∧
    exportedFacConstraints cs
      = exportedFacConstraints (cs.filter fun c => c.ctype != 26) := by
  constructor
  · rw [exportedFacConstraints_eq]
    refine List.mem_filterMap.mpr ⟨c, hc, ?_⟩
    simp [h26, hb]
  · rw [exportedFacConstraints_eq, exportedFacConstraints_eq,
      filterMap_filter_eq]
    apply List.filterMap_congr
    intro a _
    by_cases h26a : a.ctype = 26
    · simp [h26a]
    · simp [h26a]

/-- Witness for `los_excluded_from_export` on a live set holding the
default line-of-sight constraint and one elevation constraint. -/
theorem los_excluded_witness :
    entryOfLive elevMin ∈ exportedFacConstraints [losDefault, elevMin] ∧
    exportedFacConstraints [losDefault, elevMin]
      = exportedFacConstraints
          ([losDefault, elevMin].filter fun c => c.ctype != 26) := by
  exact los_excluded_from_export [losDefault, elevMin] elevMin
    (by simp) (by decide) (by decide)

/-! ## C10 — export manifest invariants -/

/-- Membership is invariant under first-occurrence deduplication. -/
theorem mem_uniqueKeys : ∀ (l : List String) (a : String),
    a ∈ uniqueKeys l ↔ a ∈ l
  | [], a => by simp [uniqueKeys]
  | b :: l, a => by
    rw [uniqueKeys]
    by_cases hab : a = b
    · simp [hab]
    · have ih := mem_uniqueKeys (l.filter (fun x => x ≠ b)) a
      simp only [List.mem_cons, ih, List.mem_filter]
      simp [hab]
  termination_by l => l.length
  decreasing_by
    simp only [List.length_cons]
    exact Nat.lt_succ_of_le (List.length_filter_le _ _)

/-- First-occurrence deduplication yields no duplicates. -/
theorem nodup_uniqueKeys : ∀ l : List String, (uniqueKeys l).Nodup
  | [] => by simp [uniqueKeys]
  | b :: l => by
    rw [uniqueKeys]
    refine List.nodup_cons.mpr ⟨?_, nodup_uniqueKeys (l.filter (fun x => x ≠ b))⟩
    intro hb
    rw [mem_uniqueKeys] at hb
    exact (by simpa using (List.mem_filter.mp hb).2 : b ≠ b) rfl
  termination_by l => l.length
  decreasing_by
    simp only [List.length_cons]
    exact Nat.lt_succ_of_le (List.length_filter_le _ _)

/-- Summing an indicator over a duplicate-free key list that misses `x`
gives 0. -/
theorem sum_indicator_zero (x : String) :
    ∀ keys : List String, x ∉ keys →
      (keys.map (fun k => if x = k then (1 : Nat) else 0)).sum = 0 := by
  intro keys
  induction keys with
  | nil => simp
  | cons b keys ih =>
    intro hx
    rw [List.mem_cons, not_or] at hx
    simp [hx.1, ih hx.2]

/-- Summing an indicator over a duplicate-free key list containing `x`
gives 1. -/
theorem sum_indicator_one (x : String) :
    ∀ keys : List String, keys.Nodup → x ∈ keys →
      (keys.map (fun k => if x = k then (1 : Nat) else 0)).sum = 1 := by
  intro keys
  induction keys with
  | nil => simp
  | cons b keys ih =>
    intro hnd hx
    rcases List.nodup_cons.mp hnd with ⟨hb, hnd'⟩
    rcases List.mem_cons.mp hx with hx | hx
    · subst hx
      simp [sum_indicator_zero x keys hb]
    · have hxb : x ≠ b := fun h => hb (h ▸ hx)
      simp [hxb, ih hnd' hx]

/-- Partitioning a list by a duplicate-free covering key set: the per-group
filtered counts sum to the overall filtered count. -/
theorem sum_counts_nodup {α : Type} (key : α → String) (ok : α → Bool)
    (keys : List String) (hnd : keys.Nodup) :
    ∀ l : List α, (∀ a ∈ l, key a ∈ keys) →
      (keys.map
        (fun k => ((l.filter (fun a => key a == k)).filter ok).length)).sum
      = (l.filter ok).length := by
  intro l
  induction l with
  | nil => intro _; simp
  | cons a l ih =>
    intro hcov
    have hcov' : ∀ b ∈ l, key b ∈ keys := fun b hb =>
      hcov b (List.mem_cons_of_mem a hb)
    have hka : key a ∈ keys := hcov a (List.mem_cons_self a l)
    have hsplit : ∀ k : String,
        (((a :: l).filter (fun x => key x == k)).filter ok).length
          = (if key a = k then (if ok a then 1 else 0) else 0)
            + ((l.filter (fun x => key x == k)).filter ok).length := by
      intro k
      by_cases hk : key a = k
      · cases hok : ok a <;>
          simp [List.filter_cons, hk, hok, Nat.add_comm]
      · simp [List.filter_cons, hk]
    calc (keys.map
        (fun k => (((a :: l).filter (fun x => key x == k)).filter ok).length)).sum
        = (keys.map (fun k =>
            (if key a = k then (if ok a then 1 else 0) else 0)
              + ((l.filter (fun x => key x == k)).filter ok).length)).sum := by
          exact congrArg List.sum (List.map_congr_left fun k _ => hsplit k)
      _ = (keys.map (fun k =>
            if key a = k then (if ok a then 1 else 0) else 0)).sum
          + (keys.map (fun k =>
            ((l.filter (fun x => key x == k)).filter ok).length)).sum := by
          rw [← List.sum_map_add]
      _ = (if ok a then 1 else 0) + (l.filter ok).length := by
          rw [ih hcov']
          congr 1
          cases hok : ok a
          · simp [hok]
          · simpa [hok] using sum_indicator_one (key a) keys hnd hka
      _ = ((a :: l).filter ok).length := by
          cases hok : ok a <;> simp [List.filter_cons, hok, Nat.add_comm]

/-- A filter shortens a list strictly exactly when some element fails the
predicate. -/
theorem length_filter_lt_iff_any {α : Type} (p : α → Bool) (l : List α) :
    (l.filter p).length < l.length ↔ l.any (fun a => !p a) = true := by
  induction l with
  | nil => simp
  | cons a l ih =>
    cases hp : p a
    · have hle := Nat.lt_succ_of_le (List.length_filter_le p l)
      simp [List.filter_cons, hp, hle]
    · simp [List.filter_cons, hp, Nat.succ_lt_succ_iff, ih]

/-- C10: in every summary manifest, `total_components` equals the sum of the
per-kind counts of `components_by_type`, the number of `exported_files` is at
most `total_components`, and it is strictly smaller exactly when
normalization or writing failed for some loaded component. -/
theorem export_summary_invariant (children : List SceneChild) :
    ((exportAllComponents children).byType.map Prod.snd).sum
        = (exportAllComponents children).total ∧
    (exportAllComponents children).files.length
        ≤ (exportAllComponents children).total ∧
    ((exportAllComponents children).files.length
        < (exportAllComponents children).total ↔
      (loadAllComponents children).any (fun c => !c.exportOk) = true) := by
  by_cases hc : (loadAllComponents children).isEmpty = true
  · have hnil : loadAllComponents children = [] := List.isEmpty_iff.mp hc
    unfold exportAllComponents
    simp [hc, hnil]
  · have hnd := nodup_uniqueKeys ((loadAllComponents children).map (·.className))
    have hcov : ∀ a ∈ loadAllComponents children,
        a.className ∈ uniqueKeys ((loadAllComponents children).map (·.className)) :=
      fun a ha => (mem_uniqueKeys _ _).mpr (List.mem_map_of_mem _ ha)
    have htot : ((uniqueKeys ((loadAllComponents children).map (·.className))).map
          (fun k => ((loadAllComponents children).filter
            (fun c => c.className == k)).length)).sum
        = (loadAllComponents children).length := by
      have h := sum_counts_nodup (fun c : SceneChild => c.className)
        (fun _ => true) _ hnd (loadAllComponents children) hcov
      simpa using h
    have hfiles : ((uniqueKeys ((loadAllComponents children).map (·.className))).map
          (fun k => (((loadAllComponents children).filter
            (fun c => c.className == k)).filter (·.exportOk)).length)).sum
        = ((loadAllComponents children).filter (·.exportOk)).length :=
      sum_counts_nodup (fun c : SceneChild => c.className)
        (·.exportOk) _ hnd (loadAllComponents children) hcov
    have hflen : ((uniqueKeys ((loadAllComponents children).map (·.className))).flatMap
          (fun k => (((loadAllComponents children).filter
              (fun c => c.className == k)).filter (·.exportOk)).map
            (fun c => k.toLower ++ "/" ++ c.instanceName ++ "_config.json"))).length
        = ((loadAllComponents children).filter (·.exportOk)).length := by
      rw [List.length_flatMap]
      rw [← hfiles]
      exact congrArg List.sum (List.map_congr_left fun k _ => List.length_map _ _)
    have hexp : exportAllComponents children =
        { total := (loadAllComponents children).length
          byType := (uniqueKeys ((loadAllComponents children).map
              (·.className))).map fun k =>
            (k, ((loadAllComponents children).filter
              (fun c => c.className == k)).length)
          files := (uniqueKeys ((loadAllComponents children).map
              (·.className))).flatMap fun k =>
            (((loadAllComponents children).filter
                (fun c => c.className == k)).filter (·.exportOk)).map
              fun c => k.toLower ++ "/" ++ c.instanceName ++ "_config.json" } := by
      unfold exportAllComponents
      rw [if_neg hc]
    rw [hexp]
    refine ⟨?_, ?_, ?_⟩
    · dsimp only
      rw [List.map_map]
      exact htot
    · dsimp only
      rw [hflen]
      exact List.length_filter_le (·.exportOk) (loadAllComponents children)
    · dsimp only
      rw [hflen]
      exact length_filter_lt_iff_any (·.exportOk) (loadAllComponents children)

/-! ## C1 — round-trip idempotence

### Counterexample: a TwoBody satellite loses its elements

`_get_orbit_info` reads the elements back only for the J2 propagator
(`components/satellite.py`), while `_configure` writes them for J2 *and*
two-body, so the exported record of a TwoBody satellite has no `orbit` and
no `step`, and re-creation falls back to the `from_dict` defaults. -/

/-- A TwoBody satellite record with a 98.5° inclination. -/
def cfgTB : Config :=
  { type := some "Satellite", name := some "TB1", propagator := some "TwoBody"
    orbit := some
      { semi_major_axis := none, eccentricity := none
        inclination := some (197/2), raan := none
        arg_of_perigee := none, true_anomaly := none }
    step := none, position := none, constraints := [] }

/-- The live state `cfgTB` creates under `sc0`. -/
def satTB : SatState :=
  { propType := 5, step := 60, elems := ⟨7000, 0, 197/2, 0, 0, 0⟩
    constraints := [losDefault] }

/-- The live state obtained by re-creating `satTB` from its normalized
export: the inclination is back at the default 0. -/
def satTB2 : SatState :=
  { propType := 5, step := 60, elems := ⟨7000, 0, 0, 0, 0, 0⟩
    constraints := [losDefault] }

/-- C1 counterexample: factory-creating `cfgTB`, exporting it
(`to_dict` + normalization) and factory-creating the result reproduces an
inclination of 0 instead of 98.5 — far outside the 1e-9 relative
tolerance, so the round-trip claim fails for TwoBody satellites. -/
theorem roundTrip_counterexample :
    (factoryCreate sc0 cfgTB).1 = .ok ("TB1", .sat satTB) ∧
    (factoryCreate sc0 (normalizeSatellite (satGetInfo "TB1" satTB))).1
      = .ok ("TB1", .sat satTB2) ∧
    satTB.elems.inclination = 197/2 ∧
    satTB2.elems.inclination = 0 ∧
    ¬(|satTB.elems.inclination - satTB2.elems.inclination|
        ≤ 1/1000000000 * |satTB.elems.inclination|) := by
  refine ⟨rfl, rfl, rfl, rfl, ?_⟩
  have h1 : satTB.elems.inclination = 197/2 := rfl
  have h2 : satTB2.elems.inclination = 0 := rfl
  rw [h1, h2, sub_zero, abs_of_nonneg (by norm_num : (0:ℚ) ≤ 197/2)]
  norm_num

/-! ### The amended round trip: facility and J2-satellite machinery -/

/-- The constraint a live constraint is replayed into when its exported
record is applied to a fresh facility: added via the registry, then given
the exported bounds. -/
def replayOfLive (c : LiveConstraint) : LiveConstraint :=
  setBounds (newConstraint c.name c.ctype) (entryOfLive c)

/-- Invariant of the non-default part of a facility's constraint list after
declarative constraint application: pairwise distinct names, and every
member was added through the registry (so its name is a real, non-blank,
non-line-of-sight registry key of its own type code). -/
def GoodTail (tl : List LiveConstraint) : Prop :=
  (tl.map LiveConstraint.name).Nodup ∧
  ∀ a ∈ tl, a.name ≠ "" ∧ a.name ≠ "LineOfSight" ∧
    constraintTypeOf a.name = some a.ctype

theorem goodTail_nil : GoodTail [] := ⟨List.nodup_nil, by simp⟩

/-- The registry never yields the line-of-sight code (26): the entry is
commented out in the source. -/
theorem constraintTypeOf_ne_26 {n : String} {c : Nat}
    (h : constraintTypeOf n = some c) : c ≠ 26 := by
  unfold constraintTypeOf at h
  cases hf : constraintTypeMap.find? (fun p => p.1 == n) with
  | none => rw [hf] at h; exact absurd h (by simp)
  | some p =>
    rw [hf] at h
    have hp : p ∈ constraintTypeMap := List.mem_of_find?_eq_some hf
    have hall : ∀ q ∈ constraintTypeMap, q.2 ≠ 26 := by decide
    have : p.2 = c := by simpa using h
    exact this ▸ hall p hp

theorem setBounds_name (c : LiveConstraint) (e : CEntry) :
    (setBounds c e).name = c.name := by
  unfold setBounds
  cases e.min <;> cases e.max <;> rfl

theorem setBounds_ctype (c : LiveConstraint) (e : CEntry) :
    (setBounds c e).ctype = c.ctype := by
  unfold setBounds
  cases e.min <;> cases e.max <;> rfl

/-- `updateByName` fails exactly when no live constraint carries the
requested name. -/
theorem updateByName_none_iff (e : CEntry) :
    ∀ tl : List LiveConstraint,
      updateByName e tl = none ↔ ∀ c ∈ tl, c.name ≠ e.name := by
  intro tl
  induction tl with
  | nil => simp [updateByName]
  | cons c rest ih =>
    rw [updateByName]
    by_cases hc : (c.name == e.name) = true
    · rw [if_pos hc]
      constructor
      · intro h; exact absurd h (by simp)
      · intro h
        exact absurd (by simpa using hc) (h c (List.mem_cons_self c rest))
    · rw [if_neg hc, Option.map_eq_none', ih]
      constructor
      · intro h a ha
        rcases List.mem_cons.mp ha with rfl | ha
        · intro hh; exact hc (by simp [hh])
        · exact h a ha
      · intro h a ha
        exact h a (List.mem_cons_of_mem c ha)

/-- A successful `updateByName` replaces one element by a bound-updated copy
with the same name and type code. -/
theorem updateByName_some_shape (e : CEntry) :
    ∀ tl tl2 : List LiveConstraint, updateByName e tl = some tl2 →
      tl2.map LiveConstraint.name = tl.map LiveConstraint.name ∧
      ∀ a ∈ tl2, ∃ b ∈ tl, a.name = b.name ∧ a.ctype = b.ctype := by
  intro tl
  induction tl with
  | nil => intro tl2 h; exact absurd h (by simp [updateByName])
  | cons c rest ih =>
    intro tl2 h
    rw [updateByName] at h
    by_cases hc : (c.name == e.name) = true
    · rw [if_pos hc] at h
      have h2 : (if c.supportsMinMax then setBounds c e else c) :: rest = tl2 :=
        Option.some_inj.mp h
      subst h2
      constructor
      · cases hs : c.supportsMinMax <;> simp [hs, setBounds_name]
      · intro a ha
        rcases List.mem_cons.mp ha with rfl | ha
        · refine ⟨c, List.mem_cons_self c rest, ?_, ?_⟩ <;>
            cases hs : c.supportsMinMax <;>
              simp [hs, setBounds_name, setBounds_ctype]
        · exact ⟨a, List.mem_cons_of_mem c ha, rfl, rfl⟩
    · rw [if_neg hc] at h
      cases hr : updateByName e rest with
      | none => rw [hr] at h; exact absurd h (by simp)
      | some r2 =>
        rw [hr] at h
        have h2 : c :: r2 = tl2 := by simpa using h
        subst h2
        obtain ⟨hn, hm⟩ := ih r2 hr
        refine ⟨by simp [hn], ?_⟩
        intro a ha
        rcases List.mem_cons.mp ha with rfl | ha
        · exact ⟨a, List.mem_cons_self a rest, rfl, rfl⟩
        · obtain ⟨b, hb, hb1, hb2⟩ := hm a ha
          exact ⟨b, List.mem_cons_of_mem c hb, hb1, hb2⟩

theorem goodTail_updateByName (e : CEntry) (tl tl2 : List LiveConstraint)
    (h : GoodTail tl) (hu : updateByName e tl = some tl2) : GoodTail tl2 := by
  obtain ⟨hn, hm⟩ := updateByName_some_shape e tl tl2 hu
  refine ⟨hn ▸ h.1, ?_⟩
  intro a ha
  obtain ⟨b, hb, hab1, hab2⟩ := hm a ha
  obtain ⟨hb1, hb2, hb3⟩ := h.2 b hb
  exact ⟨hab1 ▸ hb1, hab1 ▸ hb2, by rw [hab1, hab2]; exact hb3⟩

/-- Applying one declarative constraint entry to a facility whose live list
is the default line-of-sight constraint followed by a good tail keeps that
shape: the head is untouched (its min/max query fails) and the tail stays
good. -/
theorem applyOne_los_shape (e : CEntry) (tl : List LiveConstraint)
    (h : GoodTail tl) :
    ∃ tl2, applyOneConstraint (losDefault :: tl) e = losDefault :: tl2 ∧
      GoodTail tl2 := by
  rw [applyOneConstraint]
  by_cases he : (e.name == "") = true
  · exact ⟨tl, by rw [if_pos he], h⟩
  · rw [if_neg he]
    rw [updateByName]
    by_cases hlos : (losDefault.name == e.name) = true
    · rw [if_pos hlos]
      exact ⟨tl, by rfl, h⟩
    · rw [if_neg hlos]
      cases hu : updateByName e tl with
      | some tl2 =>
        exact ⟨tl2, by simp, goodTail_updateByName e tl tl2 h hu⟩
      | none =>
        cases hr : constraintTypeOf e.name with
        | none => exact ⟨tl, by simp [hr], h⟩
        | some code =>
          have hne26 : code ≠ 26 := constraintTypeOf_ne_26 hr
          have hsupp : (newConstraint e.name code).supportsMinMax = true := by
            simp [newConstraint, LiveConstraint.supportsMinMax, hne26]
          refine ⟨tl ++ [setBounds (newConstraint e.name code) e], ?_, ?_⟩
          · simp [hr, hsupp]
          · have hnotin : ∀ c ∈ tl, c.name ≠ e.name :=
              (updateByName_none_iff e tl).mp hu
            obtain ⟨hnd, hprops⟩ := h
            constructor
            · rw [List.map_append]
              refine List.Nodup.append hnd (by simp) ?_
              intro x hx hx2
              obtain ⟨a, ha, rfl⟩ := List.mem_map.mp hx
              simp only [List.map_cons, List.map_nil, List.mem_singleton,
                setBounds_name, newConstraint] at hx2
              exact hnotin a ha hx2
            · intro a ha
              rcases List.mem_append.mp ha with ha | ha
              · exact hprops a ha
              · rw [List.mem_singleton] at ha
                subst ha
                refine ⟨?_, ?_, ?_⟩
                · rw [setBounds_name]
                  simp only [newConstraint]
                  exact fun hh => he (by simp [hh])
                · rw [setBounds_name]
                  simp only [newConstraint]
                  intro hh
                  exact hlos (by simp [losDefault, hh])
                · rw [setBounds_name, setBounds_ctype]
                  simpa [newConstraint] using hr

/-- The fold of `applyOne_los_shape` over a whole declarative constraint
list. -/
theorem applyConstraints_los_shape (es : List CEntry) :
    ∀ tl : List LiveConstraint, GoodTail tl →
      ∃ tl2, applyConstraints (losDefault :: tl) es = losDefault :: tl2 ∧
        GoodTail tl2 := by
  induction es with
  | nil => exact fun tl h => ⟨tl, rfl, h⟩
  | cons e es ih =>
    intro tl h
    obtain ⟨tl1, h1, hg1⟩ := applyOne_los_shape e tl h
    obtain ⟨tl2, h2, hg2⟩ := ih tl1 hg1
    refine ⟨tl2, ?_, hg2⟩
    rw [applyConstraints, List.foldl_cons, h1]
    exact h2

/-- The export of a default-LOS-headed good list is the bound-filtered
record list of the tail. -/
theorem exported_los_tail (tl : List LiveConstraint) (h : GoodTail tl) :
    exportedFacConstraints (losDefault :: tl)
      = tl.filterMap (fun a =>
          if a.enableMin || a.enableMax then some (entryOfLive a) else none) := by
  rw [exportedFacConstraints_eq, List.filterMap_cons]
  have hlos : ((losDefault.ctype != 26) &&
      (losDefault.enableMin || losDefault.enableMax)) = false := by decide
  rw [hlos]
  simp only [Bool.false_eq_true, if_false]
  apply List.filterMap_congr
  intro a ha
  have h26 : a.ctype ≠ 26 := constraintTypeOf_ne_26 (h.2 a ha).2.2
  simp [h26]

/-- Replaying the exported records of a good tail onto a fresh facility
(default line-of-sight constraint plus an accumulator of already-replayed,
name-disjoint constraints) re-adds each bounded constraint through the
registry. -/
theorem replay_loop :
    ∀ tl acc : List LiveConstraint, GoodTail tl →
      (∀ c ∈ acc, ∀ a ∈ tl, c.name ≠ a.name) →
      applyConstraints (losDefault :: acc)
          (tl.filterMap (fun a =>
            if a.enableMin || a.enableMax then some (entryOfLive a) else none))
        = losDefault :: (acc ++ tl.filterMap (fun a =>
            if a.enableMin || a.enableMax then some (replayOfLive a) else none)) := by
  intro tl
  induction tl with
  | nil => intro acc _ _; simp [applyConstraints]
  | cons a tl ih =>
    intro acc hg hacc
    obtain ⟨hna, hnl, hreg⟩ := hg.2 a (List.mem_cons_self a tl)
    have h26 : a.ctype ≠ 26 := constraintTypeOf_ne_26 hreg
    have hgt : GoodTail tl := by
      refine ⟨(List.nodup_cons.mp (by simpa using hg.1)).2, ?_⟩
      exact fun b hb => hg.2 b (List.mem_cons_of_mem a hb)
    have hnotin : a.name ∉ tl.map LiveConstraint.name :=
      (List.nodup_cons.mp (by simpa using hg.1)).1
    by_cases hb : (a.enableMin || a.enableMax) = true
    · rw [List.filterMap_cons, if_pos hb]
      have hstep : applyOneConstraint (losDefault :: acc) (entryOfLive a)
          = losDefault :: (acc ++ [replayOfLive a]) := by
        rw [applyOneConstraint]
        have hne : ((entryOfLive a).name == "") = false := by
          simp [entryOfLive, hna]
        rw [if_neg (by simp [hne])]
        rw [updateByName]
        have hlos : (losDefault.name == (entryOfLive a).name) = false := by
          simp [entryOfLive, losDefault]
          exact fun hh => hnl hh.symm
        rw [if_neg (by simp [hlos])]
        have hnone : updateByName (entryOfLive a) acc = none := by
          rw [updateByName_none_iff]
          intro c hcmem
          simpa [entryOfLive] using hacc c hcmem a (List.mem_cons_self a tl)
        rw [hnone]
        have hreg' : constraintTypeOf (entryOfLive a).name = some a.ctype := by
          simpa [entryOfLive] using hreg
        simp only [Option.map_none', hreg']
        have hsupp : (newConstraint (entryOfLive a).name a.ctype).supportsMinMax
            = true := by
          simp [newConstraint, LiveConstraint.supportsMinMax, h26]
        rw [if_pos hsupp]
        simp [replayOfLive, entryOfLive]
      rw [applyConstraints, List.foldl_cons, hstep]
      have hacc' : ∀ c ∈ acc ++ [replayOfLive a], ∀ b ∈ tl, c.name ≠ b.name := by
        intro c hcmem b hbmem
        rcases List.mem_append.mp hcmem with hcmem | hcmem
        · exact hacc c hcmem b (List.mem_cons_of_mem a hbmem)
        · rw [List.mem_singleton] at hcmem
          subst hcmem
          rw [replayOfLive, setBounds_name]
          simp only [newConstraint]
          intro hh
          exact hnotin (hh ▸ List.mem_map_of_mem LiveConstraint.name hbmem)
      have := ih (acc ++ [replayOfLive a]) hgt hacc'
      rw [applyConstraints] at this
      rw [this, List.filterMap_cons, if_pos hb, List.append_assoc]
      rfl
    · rw [List.filterMap_cons, if_neg hb, List.filterMap_cons, if_neg hb]
      exact ih acc hgt (fun c hcmem b hbmem =>
        hacc c hcmem b (List.mem_cons_of_mem a hbmem))

/-- Replaying an exported bounded constraint reproduces a live constraint
with the same observable description. -/
theorem facInfo_replay (a : LiveConstraint) (h26 : a.ctype ≠ 26) :
    facConstraintInfo (replayOfLive a) = facConstraintInfo a := by
  have hshape : replayOfLive a =
      { name := a.name, ctype := a.ctype
        enableMin := a.enableMin
        minVal := if a.enableMin then a.minVal else 0
        enableMax := a.enableMax
        maxVal := if a.enableMax then a.maxVal else 0 } := by
    cases hm : a.enableMin <;> cases hx : a.enableMax <;>
      simp [replayOfLive, setBounds, entryOfLive, newConstraint, hm, hx]
  rw [hshape]
  cases hm : a.enableMin <;> cases hx : a.enableMax <;>
    simp [facConstraintInfo, LiveConstraint.supportsMinMax, h26, hm, hx]

/-- The observable constraint description of the replayed list equals that
of the original good tail. -/
theorem obs_replay (tl : List LiveConstraint) (h : GoodTail tl) :
    facGetConstraintsInfo (tl.filterMap (fun a =>
        if a.enableMin || a.enableMax then some (replayOfLive a) else none))
      = facGetConstraintsInfo tl := by
  induction tl with
  | nil => rfl
  | cons a tl ih =>
    obtain ⟨hna, hnl, hreg⟩ := h.2 a (List.mem_cons_self a tl)
    have h26 : a.ctype ≠ 26 := constraintTypeOf_ne_26 hreg
    have hgt : GoodTail tl := by
      refine ⟨(List.nodup_cons.mp (by simpa using h.1)).2, ?_⟩
      exact fun b hb => h.2 b (List.mem_cons_of_mem a hb)
    by_cases hb : (a.enableMin || a.enableMax) = true
    · rw [List.filterMap_cons, if_pos hb]
      unfold facGetConstraintsInfo
      rw [List.filterMap_cons, List.filterMap_cons, facInfo_replay a h26]
      cases hfa : facConstraintInfo a with
      | some v =>
        simp only [hfa]
        exact congrArg (fun l => v :: l) (ih hgt)
      | none =>
        simp only [hfa]
        exact ih hgt
    · rw [List.filterMap_cons, if_neg hb]
      have hnone : facConstraintInfo a = none := by
        simp [facConstraintInfo, LiveConstraint.supportsMinMax, h26, hb]
      unfold facGetConstraintsInfo
      rw [List.filterMap_cons, hnone]
      exact ih hgt

/-- The altitude coercion of the normalizer is numerically the identity. -/
theorem intCoerce_self (q : ℚ) : intCoerce q = q := by
  unfold intCoerce
  by_cases h : (q == ((truncQ q : ℤ) : ℚ)) = true
  · rw [if_pos h]
    exact (beq_iff_eq.mp h).symm
  · rw [if_neg h]

/-- A record whose `name` is non-falsy yields a nonempty name string. -/
theorem getD_name_nonblank (cfg : Config) (h : isBlank cfg.name = false) :
    isBlank (some (cfg.name.getD "")) = false := by
  cases hn : cfg.name with
  | none => rw [hn] at h; exact absurd h (by simp [isBlank])
  | some s => rw [hn] at h; simpa [isBlank] using h

/-- The success shape of `SatelliteComponent.from_dict`. -/
theorem satFromDict_ok (sc : Scenario) (cfg : Config)
    (h : isBlank cfg.name = false) :
    satFromDict sc cfg = (.ok (cfg.name.getD "", createSatellite sc
      { propagator := propOfString (cfg.propagator.getD "J2Perturbation")
        semi_major_axis := (cfg.orbit.getD default).semi_major_axis.getD 7000
        eccentricity := (cfg.orbit.getD default).eccentricity.getD 0
        inclination := (cfg.orbit.getD default).inclination.getD 0
        raan := (cfg.orbit.getD default).raan.getD 0
        arg_of_perigee := (cfg.orbit.getD default).arg_of_perigee.getD 0
        true_anomaly := (cfg.orbit.getD default).true_anomaly.getD 0
        step := cfg.step.getD 60 }), [cfg.name.getD ""]) := by
  unfold satFromDict
  rw [if_neg (by simp [h])]

/-- The success shape of `FacilityComponent.from_dict`: the `if constraints:`
guard collapses because applying an empty constraint list is the
identity. -/
theorem facFromDict_ok (sc : Scenario) (cfg : Config)
    (h : isBlank cfg.name = false) :
    facFromDict sc cfg = (.ok (cfg.name.getD "",
      { latitude := (cfg.position.getD default).latitude.getD 0
        longitude := (cfg.position.getD default).longitude.getD 0
        altitude := (cfg.position.getD default).altitude.getD 0
        constraints := applyConstraints sc.facDefaultCons cfg.constraints }),
      [cfg.name.getD ""]) := by
  unfold facFromDict createFacility
  rw [if_neg (by simp [h])]
  cases hcs : cfg.constraints with
  | nil => simp [applyConstraints]
  | cons e es => simp

/-- Creation with the J2 propagator writes the step and every element. -/
theorem createSat_J2 (sc : Scenario) (k : SatKwargs) (hk : k.propagator = 1) :
    createSatellite sc k =
      { propType := 1, step := k.step
        elems := ⟨k.semi_major_axis, k.eccentricity, k.inclination, k.raan,
          k.arg_of_perigee, k.true_anomaly⟩
        constraints := sc.satDefaultCons } := by
  simp [createSatellite, configureSatellite, configureJ2Orbit, hk]

/-- Normalizing the description of a live J2 satellite produces the full
re-creation record. -/
theorem normalizeSat_J2 (n : String) (s : SatState) (h : s.propType = 1) :
    normalizeSatellite (satGetInfo n s) =
      { type := some "Satellite", name := some n
        propagator := some "J2Perturbation"
        orbit := some
          { semi_major_axis := some s.elems.semiMajorAxis
            eccentricity := some s.elems.eccentricity
            inclination := some s.elems.inclination
            raan := some s.elems.raan
            arg_of_perigee := some s.elems.argOfPerigee
            true_anomaly := some s.elems.trueAnomaly }
        step := some s.step, position := none, constraints := [] } := by
  have hname : propagatorName 1 = "J2Perturbation" := rfl
  have hstrip : stripParen "J2Perturbation" = "J2Perturbation" := rfl
  have hdef : (default : OrbitConfig) = ⟨none, none, none, none, none, none⟩ :=
    rfl
  simp [normalizeSatellite, satGetInfo, getOrbitInfo,
    satGetConstraintsInfo, OrbitInfo.isEmpty, h, hname, hstrip, hdef,
    Config.mk.injEq, OrbitConfig.mk.injEq]

/-- C1 amended: the create → describe → normalize → re-create round trip is
the identity on the live state of a satellite whose propagator tag resolves
to J2-perturbation, and reproduces the exact position and the observable
constraint description of a facility (the live sets may differ by
information-free constraints that were added with no bounds and are
therefore dropped by the export).  For a TwoBody satellite the round trip
fails (`roundTrip_counterexample`): describe reads the elements back only
for J2, so the elements and step are lost. -/
theorem roundTrip_amended (sc : Scenario) (cfgS cfgF : Config)
    (hS : isBlank cfgS.name = false)
    (hJ2 : propOfString (cfgS.propagator.getD "J2Perturbation") = 1)
    (hF : isBlank cfgF.name = false)
    (hLOS : sc.facDefaultCons = [losDefault]) :
    (∀ n s1, (satFromDict sc cfgS).1 = .ok (n, s1) →
      (satFromDict sc (normalizeSatellite (satGetInfo n s1))).1 = .ok (n, s1)) ∧
    (∀ n f1, (facFromDict sc cfgF).1 = .ok (n, f1) →
      ∃ f2, (facFromDict sc (normalizeFacility (facGetInfo n f1))).1
          = .ok (n, f2) ∧
        f2.latitude = f1.latitude ∧ f2.longitude = f1.longitude ∧
        f2.altitude = f1.altitude ∧
        facGetConstraintsInfo f2.constraints
          = facGetConstraintsInfo f1.constraints) := by
  constructor
  · intro n s1 h1
    rw [satFromDict_ok sc cfgS hS] at h1
    simp only [Prod.mk.injEq, Except.ok.injEq] at h1
    obtain ⟨hn, hs1⟩ := h1
    have hstate := createSat_J2 sc
      { propagator := propOfString (cfgS.propagator.getD "J2Perturbation")
        semi_major_axis := (cfgS.orbit.getD default).semi_major_axis.getD 7000
        eccentricity := (cfgS.orbit.getD default).eccentricity.getD 0
        inclination := (cfgS.orbit.getD default).inclination.getD 0
        raan := (cfgS.orbit.getD default).raan.getD 0
        arg_of_perigee := (cfgS.orbit.getD default).arg_of_perigee.getD 0
        true_anomaly := (cfgS.orbit.getD default).true_anomaly.getD 0
        step := cfgS.step.getD 60 } hJ2
    rw [hstate] at hs1
    have hprop1 : s1.propType = 1 := by rw [← hs1]
    rw [normalizeSat_J2 n s1 hprop1]
    rw [satFromDict_ok sc _ (by subst hn; exact getD_name_nonblank cfgS hS)]
    simp only [Option.getD_some]
    have hpJ2 : propOfString "J2Perturbation" = 1 := rfl
    rw [createSat_J2 sc _ hpJ2]
    rw [← hs1]
  · intro n f1 h1
    rw [facFromDict_ok sc cfgF hF] at h1
    simp only [Prod.mk.injEq, Except.ok.injEq] at h1
    obtain ⟨hn, hf1⟩ := h1
    rw [hLOS] at hf1
    obtain ⟨tl1, htl1, hg1⟩ :=
      applyConstraints_los_shape cfgF.constraints [] goodTail_nil
    rw [htl1] at hf1
    have hfc : f1.constraints = losDefault :: tl1 := by rw [← hf1]
    have hflat : f1.latitude = (cfgF.position.getD default).latitude.getD 0 := by
      rw [← hf1]
    have hflon : f1.longitude = (cfgF.position.getD default).longitude.getD 0 := by
      rw [← hf1]
    have hfalt : f1.altitude = (cfgF.position.getD default).altitude.getD 0 := by
      rw [← hf1]
    have hnorm : normalizeFacility (facGetInfo n f1) =
        { type := some "Facility", name := some n
          propagator := none, orbit := none, step := none
          position := some
            { latitude := some f1.latitude, longitude := some f1.longitude
              altitude := some (intCoerce f1.altitude) }
          constraints := exportedFacConstraints f1.constraints } := by
      simp [normalizeFacility, facGetInfo, PositionInfo.isEmpty,
        exportedFacConstraints]
    rw [hnorm]
    rw [facFromDict_ok sc _ (by subst hn; exact getD_name_nonblank cfgF hF)]
    refine ⟨_, rfl, ?_, ?_, ?_, ?_⟩
    · rfl
    · rfl
    · exact intCoerce_self f1.altitude
    · simp only [hLOS]
      rw [hfc, exported_los_tail tl1 hg1]
      rw [replay_loop tl1 [] hg1 (by simp)]
      simp only [List.nil_append]
      unfold facGetConstraintsInfo
      rw [List.filterMap_cons, List.filterMap_cons]
      exact congrArg _ (obs_replay tl1 hg1)

/-- The concrete facility record of the spec's worked example. -/
def cfgFacB : Config :=
  { type := some "Facility", name := some "Beijing", propagator := none
    orbit := none, step := none
    position := some { latitude := some 40, longitude := some 116
                       altitude := some 0 }
    constraints := [{ name := "ElevationAngle", min := some 10, max := none }] }

/-- The live facility `cfgFacB` creates under `sc0`. -/
def facB : FacState :=
  { latitude := 40, longitude := 116, altitude := 0
    constraints := [losDefault, elevMin] }

/-- Witness for `roundTrip_amended`: the concrete J2 satellite `cfgSatA` and
the Beijing facility of the spec's example round-trip to their own live
states. -/
theorem roundTrip_amended_witness :
    (satFromDict sc0 (normalizeSatellite (satGetInfo "SatA" satA))).1
      = .ok ("SatA", satA) ∧
    ∃ f2, (facFromDict sc0 (normalizeFacility (facGetInfo "Beijing" facB))).1
        = .ok ("Beijing", f2) ∧
      f2.latitude = facB.latitude ∧ f2.longitude = facB.longitude ∧
      f2.altitude = facB.altitude ∧
      facGetConstraintsInfo f2.constraints
        = facGetConstraintsInfo facB.constraints := by
  have h := roundTrip_amended sc0 cfgSatA cfgFacB rfl rfl rfl rfl
  exact ⟨h.1 "SatA" satA rfl, h.2 "Beijing" facB rfl⟩

end STKToolkit
